import Mathlib

/-!
Verification of the SuperCourier mini ETL pipeline (src/de-code-snippet.py).

The development shallowly embeds the core enrichment and classification
logic: the weather lookup (`enrich_with_weather.get_weather`), the weather
table keying used by `generate_weather_data`, and the delay scorer
(`calculate_delivery_time`).  Python floats are modelled by exact rationals
(every constant in the scorer is an exact decimal), Python `dict` lookups by
association-list lookups, and the Python `None` sentinel by `Option`.
-/

namespace SuperCourier

/-- Association-list lookup keyed by strings; models a Python `dict`
subscript that may miss (`d[k]` under `try ... except KeyError`). -/
def lookup? {α : Type} : List (String × α) → String → Option α
  | [], _ => none
  | (k, v) :: rest, key => if key = k then some v else lookup? rest key

/-- Models Python `d.get(k, default)` on a numeric-valued dict. -/
def getD (l : List (String × ℚ)) (k : String) (d : ℚ) : ℚ :=
  match lookup? l k with
  | some v => v
  | none => d

/-- A fully enriched delivery row: exactly the fields `calculate_delivery_time`
reads.  `WeatherCondition` is `none` when the weather lookup missed
(Python `None`). -/
structure Row where
  distance : ℕ
  package_type : String
  delivery_zone : String
  WeatherCondition : Option String
  hour : ℕ
  weekday : String
  actual_delivery_time : ℕ

/-- `package_factors` dict from `calculate_delivery_time`. -/
def package_factors : List (String × ℚ) :=
  [("Small", 1), ("Medium", 12/10), ("Large", 15/10), ("X-Large", 2), ("Special", 25/10)]

/-- `zone_factors` dict from `calculate_delivery_time`. -/
def zone_factors : List (String × ℚ) :=
  [("Urban", 12/10), ("Suburban", 1), ("Rural", 13/10), ("Industrial", 9/10),
   ("Shopping Center", 14/10)]

/-- `weather_factors` dict from `calculate_delivery_time`. -/
def weather_factors : List (String × ℚ) :=
  [("Sunny", 1), ("Cloudy", 105/100), ("Rainy", 12/10), ("Snowy", 18/10),
   ("Windy", 11/10), ("Foggy", 13/10)]

/-- `package_factors.get(row['package_type'], 1.0)`. -/
def package_multiplier (s : String) : ℚ := getD package_factors s 1

/-- `zone_factors.get(row['delivery_zone'], 1.0)`. -/
def zone_multiplier (s : String) : ℚ := getD zone_factors s 1

/-- `weather_factors.get(row['WeatherCondition'], 1.0)`; a Python `None`
weather value is not a dict key, so it also falls to the default. -/
def weather_multiplier : Option String → ℚ
  | none => 1
  | some s => getD weather_factors s 1

/-- Peak-hours branch of `calculate_delivery_time`:
`1.3` if `7 <= hour <= 9`, `1.4` if `17 <= hour <= 19`, else `1.0`. -/
def peak_multiplier (hour : ℕ) : ℚ :=
  if 7 ≤ hour ∧ hour ≤ 9 then 13/10
  else if 17 ≤ hour ∧ hour ≤ 19 then 14/10
  else 1

/-- Day-of-week branch of `calculate_delivery_time`. -/
def day_multiplier (weekday : String) : ℚ :=
  if weekday = "Monday" ∨ weekday = "Friday" then 12/10
  else if weekday = "Saturday" ∨ weekday = "Sunday" then 9/10
  else 1

/-- `base_time = 30 + row['distance'] * 0.8`. -/
def base_time (distance : ℕ) : ℚ := 30 + (distance : ℚ) * (8/10)

/-- `adjusted_time = base_time * package_multiplier * zone_multiplier *
weather_multiplier * peak_multiplier * day_multiplier`. -/
def adjusted_time (row : Row) : ℚ :=
  base_time row.distance * package_multiplier row.package_type
    * zone_multiplier row.delivery_zone
    * weather_multiplier row.WeatherCondition
    * peak_multiplier row.hour
    * day_multiplier row.weekday

/-- `delay_threshold = adjusted_time * 1.2`. -/
def delay_threshold (row : Row) : ℚ := adjusted_time row * (12/10)

/-- `calculate_delivery_time`: returns the status string
`'On-time' if delay_threshold > row['actual_delivery_time'] else 'Delayed'`. -/
def calculate_delivery_time (row : Row) : String :=
  if delay_threshold row > (row.actual_delivery_time : ℚ) then "On-time" else "Delayed"

/-- A timestamp, with the calendar and clock fields
`enrich_with_weather.get_weather` can read. -/
structure Timestamp where
  year : ℕ
  month : ℕ
  day : ℕ
  hour : ℕ
  minute : ℕ
  second : ℕ

/-- Left-pad a string with zeros to width `w` (strftime-style padding). -/
def zfill (w : ℕ) (s : String) : String :=
  String.mk (List.replicate (w - s.length) '0') ++ s

/-- `timestamp.strftime('%Y-%m-%d')`. -/
def dateStr (t : Timestamp) : String :=
  zfill 4 (toString t.year) ++ "-" ++ zfill 2 (toString t.month) ++ "-"
    ++ zfill 2 (toString t.day)

/-- `str(timestamp.hour)`: the decimal string of the hour, with no padding. -/
def hourStr (t : Timestamp) : String := toString t.hour

/-- The two-level weather table: date string to hour string to condition,
as built by `generate_weather_data` and read by `get_weather`. -/
abbrev WeatherTable := List (String × List (String × String))

/-- `enrich_with_weather.get_weather`: `weather_data[date_str][hour_str]`
under `try ... except KeyError: return None`. -/
def get_weather (weather_data : WeatherTable) (t : Timestamp) : Option String :=
  match lookup? weather_data (dateStr t) with
  | some dayTable => lookup? dayTable (hourStr t)
  | none => none

/-- One day of the weather table as keyed by `generate_weather_data`:
`weather_data[date_str][str(hour)] = condition` for `hour in range(24)`.
The per-hour conditions (randomly drawn in the source) are abstracted as
the function `cond`. -/
def generatedDay (cond : ℕ → String) : List (String × String) :=
  (List.range 24).map (fun h => (toString h, cond h))

/-! ## Helper lemmas -/

theorem lookup?_mem {α : Type} {l : List (String × α)} {k : String} {v : α}
    (h : lookup? l k = some v) : ∃ p ∈ l, p.2 = v := by
  induction l with
  | nil => simp [lookup?] at h
  | cons p rest ih =>
    rw [lookup?] at h
    split at h
    · exact ⟨p, List.mem_cons_self p rest, Option.some.inj h⟩
    · obtain ⟨q, hq, hv⟩ := ih h
      exact ⟨q, List.mem_cons_of_mem p hq, hv⟩

theorem lookup?_eq_none_of_not_mem {α : Type} {l : List (String × α)} {k : String}
    (h : k ∉ l.map Prod.fst) : lookup? l k = none := by
  induction l with
  | nil => rfl
  | cons p rest ih =>
    rw [List.map_cons, List.mem_cons, not_or] at h
    rw [lookup?, if_neg h.1]
    exact ih h.2

theorem getD_default {l : List (String × ℚ)} {k : String} (d : ℚ)
    (h : k ∉ l.map Prod.fst) : getD l k d = d := by
  unfold getD
  rw [lookup?_eq_none_of_not_mem h]

theorem getD_pos (l : List (String × ℚ)) (k : String) (d : ℚ)
    (hl : ∀ p ∈ l, 0 < p.2) (hd : 0 < d) : 0 < getD l k d := by
  unfold getD
  split
  · next v hv =>
      obtain ⟨p, hp, hpv⟩ := lookup?_mem hv
      exact hpv ▸ hl p hp
  · exact hd

theorem package_multiplier_pos (s : String) : 0 < package_multiplier s := by
  refine getD_pos _ _ _ (fun p hp => ?_) one_pos
  simp only [package_factors, List.mem_cons, List.not_mem_nil, or_false] at hp
  rcases hp with h | h | h | h | h <;> rw [h] <;> norm_num

theorem zone_multiplier_pos (s : String) : 0 < zone_multiplier s := by
  refine getD_pos _ _ _ (fun p hp => ?_) one_pos
  simp only [zone_factors, List.mem_cons, List.not_mem_nil, or_false] at hp
  rcases hp with h | h | h | h | h <;> rw [h] <;> norm_num

theorem weather_multiplier_pos (w : Option String) : 0 < weather_multiplier w := by
  cases w with
  | none => exact one_pos
  | some s =>
    refine getD_pos _ _ _ (fun p hp => ?_) one_pos
    simp only [weather_factors, List.mem_cons, List.not_mem_nil, or_false] at hp
    rcases hp with h | h | h | h | h | h <;> rw [h] <;> norm_num

theorem peak_multiplier_pos (h : ℕ) : 0 < peak_multiplier h := by
  unfold peak_multiplier
  split
  · norm_num
  · split <;> norm_num

theorem day_multiplier_pos (w : String) : 0 < day_multiplier w := by
  unfold day_multiplier
  split
  · norm_num
  · split <;> norm_num

theorem package_multiplier_Medium : package_multiplier "Medium" = 12/10 := rfl

theorem zone_multiplier_Urban : zone_multiplier "Urban" = 12/10 := rfl

theorem weather_multiplier_Sunny : weather_multiplier (some "Sunny") = 1 := rfl

theorem peak_multiplier_8 : peak_multiplier 8 = 13/10 := rfl

theorem day_multiplier_Monday : day_multiplier "Monday" = 12/10 := rfl

theorem calculate_delivery_time_eq_ite (row : Row) :
    calculate_delivery_time row =
      if (row.actual_delivery_time : ℚ) < delay_threshold row then "On-time" else "Delayed" :=
  rfl

/-! ## Claim theorems -/

/-- C1: for every enriched record the Delay Scorer computes
`expected_time = (30 + 0.8 * distance)` times the package, zone, weather, peak
and weekday multipliers, and `delay_threshold = expected_time * 1.2`, using
exactly the stated multiplier tables, with the peak-hour boundaries inclusive
(hour 9 gives 1.3, hour 10 gives 1.0, hour 19 gives 1.4, hour 20 gives 1.0)
and weekday 1.2 for Monday or Friday, 0.9 for Saturday or Sunday, else 1.0. -/
theorem C1_delay_scorer_formula (row : Row) :
    adjusted_time row
        = (30 + (row.distance : ℚ) * (8/10)) * package_multiplier row.package_type
            * zone_multiplier row.delivery_zone * weather_multiplier row.WeatherCondition
            * peak_multiplier row.hour * day_multiplier row.weekday
    ∧ delay_threshold row = adjusted_time row * (12/10)
    ∧ package_multiplier "Small" = 1 ∧ package_multiplier "Medium" = 12/10
    ∧ package_multiplier "Large" = 15/10 ∧ package_multiplier "X-Large" = 2
    ∧ package_multiplier "Special" = 25/10
    ∧ zone_multiplier "Urban" = 12/10 ∧ zone_multiplier "Suburban" = 1
    ∧ zone_multiplier "Rural" = 13/10 ∧ zone_multiplier "Industrial" = 9/10
    ∧ zone_multiplier "Shopping Center" = 14/10
    ∧ weather_multiplier (some "Sunny") = 1 ∧ weather_multiplier (some "Cloudy") = 105/100
    ∧ weather_multiplier (some "Rainy") = 12/10 ∧ weather_multiplier (some "Snowy") = 18/10
    ∧ weather_multiplier (some "Windy") = 11/10 ∧ weather_multiplier (some "Foggy") = 13/10
    ∧ (∀ h : ℕ, 7 ≤ h → h ≤ 9 → peak_multiplier h = 13/10)
    ∧ (∀ h : ℕ, 17 ≤ h → h ≤ 19 → peak_multiplier h = 14/10)
    ∧ (∀ h : ℕ, ¬(7 ≤ h ∧ h ≤ 9) → ¬(17 ≤ h ∧ h ≤ 19) → peak_multiplier h = 1)
    ∧ peak_multiplier 9 = 13/10 ∧ peak_multiplier 10 = 1
    ∧ peak_multiplier 19 = 14/10 ∧ peak_multiplier 20 = 1
    ∧ day_multiplier "Monday" = 12/10 ∧ day_multiplier "Friday" = 12/10
    ∧ day_multiplier "Saturday" = 9/10 ∧ day_multiplier "Sunday" = 9/10
    ∧ (∀ w : String, w ≠ "Monday" → w ≠ "Friday" → w ≠ "Saturday" → w ≠ "Sunday" →
        day_multiplier w = 1) := by
  refine ⟨rfl, rfl, rfl, rfl, rfl, rfl, rfl, rfl, rfl, rfl, rfl, rfl, rfl, rfl, rfl, rfl,
    rfl, rfl, ?_, ?_, ?_, rfl, rfl, rfl, rfl, rfl, rfl, rfl, rfl, ?_⟩
  · intro h h7 h9
    unfold peak_multiplier
    rw [if_pos ⟨h7, h9⟩]
  · intro h h17 h19
    unfold peak_multiplier
    rw [if_neg (by omega), if_pos ⟨h17, h19⟩]
  · intro h h1 h2
    unfold peak_multiplier
    rw [if_neg h1, if_neg h2]
  · intro w h1 h2 h3 h4
    unfold day_multiplier
    rw [if_neg (not_or.mpr ⟨h1, h2⟩), if_neg (not_or.mpr ⟨h3, h4⟩)]

/-- Witness for C1 at concrete hours and weekday. -/
theorem C1_witness :
    peak_multiplier 8 = 13/10 ∧ peak_multiplier 18 = 14/10 ∧ peak_multiplier 3 = 1 ∧
      day_multiplier "Wednesday" = 1 := by
  obtain ⟨-, -, -, -, -, -, -, -, -, -, -, -, -, -, -, -, -, -, hm, he, hp,
      -, -, -, -, -, -, -, -, hd⟩ :=
    C1_delay_scorer_formula ⟨1, "Small", "Urban", none, 0, "Monday", 0⟩
  exact ⟨hm 8 (by norm_num) (by norm_num), he 18 (by norm_num) (by norm_num),
    hp 3 (by omega) (by omega), hd "Wednesday" (by decide) (by decide) (by decide) (by decide)⟩

/-- C2: status is On-time iff `delay_threshold > actual_delivery_time` (strict),
so a record whose actual time exactly equals the threshold is Delayed; the
threshold is compared exactly, with no rounding. -/
theorem C2_status_strict_comparison (row : Row) :
    (calculate_delivery_time row = "On-time" ↔
      delay_threshold row > (row.actual_delivery_time : ℚ)) ∧
    ((row.actual_delivery_time : ℚ) = delay_threshold row →
      calculate_delivery_time row = "Delayed") := by
  constructor
  · unfold calculate_delivery_time
    split
    · next hlt => exact ⟨fun _ => hlt, fun _ => rfl⟩
    · next hge => exact ⟨fun habs => absurd habs (by decide), fun hlt => absurd hlt hge⟩
  · intro heq
    unfold calculate_delivery_time
    rw [if_neg]
    rw [gt_iff_lt, ← heq]
    exact lt_irrefl _

/-- Witness for C2: a record whose actual time exactly equals its threshold
(all multipliers default, threshold `(30 + 25 * 0.8) * 1.2 = 60`) is Delayed. -/
theorem C2_witness :
    calculate_delivery_time ⟨25, "Box", "Nowhere", none, 0, "Tuesday", 60⟩ = "Delayed" :=
  (C2_status_strict_comparison ⟨25, "Box", "Nowhere", none, 0, "Tuesday", 60⟩).2 (by
    norm_num +decide [delay_threshold, adjusted_time, base_time, package_multiplier,
      zone_multiplier, weather_multiplier, getD, lookup?, package_factors, zone_factors,
      peak_multiplier, day_multiplier])

/-- C3: a record whose weather condition is the missing sentinel is still
scored, its weather multiplier is the default 1.0, and its status equals the
status of the same record under the clear-weather (`Sunny`, multiplier 1.0)
baseline. -/
theorem C3_unknown_weather_baseline (row : Row) (h : row.WeatherCondition = none) :
    weather_multiplier row.WeatherCondition = 1 ∧
    calculate_delivery_time row =
      calculate_delivery_time { row with WeatherCondition := some "Sunny" } := by
  constructor
  · rw [h]
    rfl
  · unfold calculate_delivery_time delay_threshold adjusted_time
    rw [h]
    rfl

/-- Witness for C3 at a concrete record with missing weather. -/
theorem C3_witness :
    calculate_delivery_time ⟨10, "Small", "Urban", none, 12, "Tuesday", 100⟩ =
      calculate_delivery_time ⟨10, "Small", "Urban", some "Sunny", 12, "Tuesday", 100⟩ :=
  (C3_unknown_weather_baseline ⟨10, "Small", "Urban", none, 12, "Tuesday", 100⟩ rfl).2

/-- C4: the weather lookup is total: a missing date or a missing hour for a
present date yields the sentinel `none`, and when both date and hour are
present it returns the recorded condition. -/
theorem C4_weather_lookup_total (wd : WeatherTable) (t : Timestamp) :
    (lookup? wd (dateStr t) = none → get_weather wd t = none) ∧
    (∀ day, lookup? wd (dateStr t) = some day → lookup? day (hourStr t) = none →
      get_weather wd t = none) ∧
    (∀ day c, lookup? wd (dateStr t) = some day → lookup? day (hourStr t) = some c →
      get_weather wd t = some c) := by
  refine ⟨fun h => ?_, fun day h1 h2 => ?_, fun day c h1 h2 => ?_⟩
  · unfold get_weather
    rw [h]
  · unfold get_weather
    rw [h1]
    exact h2
  · unfold get_weather
    rw [h1]
    exact h2

/-- Witness for C4: both keys present returns the recorded condition. -/
theorem C4_witness :
    get_weather [("2024-03-01", [("5", "Sunny")])] ⟨2024, 3, 1, 5, 0, 0⟩ = some "Sunny" :=
  (C4_weather_lookup_total _ _).2.2 [("5", "Sunny")] "Sunny" rfl rfl

/-- C5: the lookup hour key is the non-padded decimal string of the hour
(hour 5 gives "5", not "05"), the same format `generate_weather_data` uses, so
the non-padded lookup finds the generated entry while a zero-padded "05" key
misses every generated entry. -/
theorem C5_hour_key_format (cond : ℕ → String) (t : Timestamp) (ht : t.hour = 5) :
    hourStr t = "5" ∧ hourStr t ≠ "05" ∧
    lookup? (generatedDay cond) "5" = some (cond 5) ∧
    lookup? (generatedDay cond) "05" = none ∧
    get_weather [(dateStr t, generatedDay cond)] t = some (cond 5) := by
  have h5 : hourStr t = "5" := by
    unfold hourStr
    rw [ht]
    rfl
  refine ⟨h5, ?_, rfl, rfl, ?_⟩
  · rw [h5]
    decide
  · unfold get_weather
    have hdl : lookup? [(dateStr t, generatedDay cond)] (dateStr t)
        = some (generatedDay cond) := by
      unfold lookup?
      rw [if_pos rfl]
    rw [hdl]
    show lookup? (generatedDay cond) (hourStr t) = some (cond 5)
    rw [h5]
    rfl

/-- Witness for C5 at a concrete timestamp with hour 5. -/
theorem C5_witness :
    get_weather [(dateStr ⟨2024, 3, 1, 5, 30, 0⟩, generatedDay (fun _ => "Foggy"))]
      ⟨2024, 3, 1, 5, 30, 0⟩ = some "Foggy" :=
  (C5_hour_key_format (fun _ => "Foggy") ⟨2024, 3, 1, 5, 30, 0⟩ rfl).2.2.2.2

/-- C6: an unrecognized package type or delivery zone is non-fatal and
resolves to multiplier 1.0, so the record's expected time equals the one with
that multiplier replaced by 1. -/
theorem C6_unrecognized_category_default (row : Row) :
    (row.package_type ∉ package_factors.map Prod.fst →
      package_multiplier row.package_type = 1 ∧
      adjusted_time row = base_time row.distance * 1 * zone_multiplier row.delivery_zone
        * weather_multiplier row.WeatherCondition * peak_multiplier row.hour
        * day_multiplier row.weekday) ∧
    (row.delivery_zone ∉ zone_factors.map Prod.fst →
      zone_multiplier row.delivery_zone = 1 ∧
      adjusted_time row = base_time row.distance * package_multiplier row.package_type * 1
        * weather_multiplier row.WeatherCondition * peak_multiplier row.hour
        * day_multiplier row.weekday) := by
  constructor
  · intro h
    have hp : package_multiplier row.package_type = 1 := by
      unfold package_multiplier
      exact getD_default 1 h
    refine ⟨hp, ?_⟩
    unfold adjusted_time
    rw [hp]
  · intro h
    have hz : zone_multiplier row.delivery_zone = 1 := by
      unfold zone_multiplier
      exact getD_default 1 h
    refine ⟨hz, ?_⟩
    unfold adjusted_time
    rw [hz]

/-- Witness for C6 at concrete unrecognized category values. -/
theorem C6_witness :
    package_multiplier "Envelope" = 1 ∧ zone_multiplier "Desert" = 1 := by
  have h := C6_unrecognized_category_default ⟨1, "Envelope", "Desert", none, 0, "Monday", 0⟩
  exact ⟨(h.1 (by decide)).1, (h.2 (by decide)).1⟩

/-- C7: holding every other field fixed, expected time (and hence the delay
threshold) is monotonically non-decreasing in distance. -/
theorem C7_monotone_in_distance (r1 r2 : Row)
    (hpkg : r1.package_type = r2.package_type)
    (hzone : r1.delivery_zone = r2.delivery_zone)
    (hw : r1.WeatherCondition = r2.WeatherCondition)
    (hh : r1.hour = r2.hour)
    (hday : r1.weekday = r2.weekday)
    (_hact : r1.actual_delivery_time = r2.actual_delivery_time)
    (hdist : r1.distance ≤ r2.distance) :
    adjusted_time r1 ≤ adjusted_time r2 ∧ delay_threshold r1 ≤ delay_threshold r2 := by
  have hb : base_time r1.distance ≤ base_time r2.distance := by
    unfold base_time
    have hc : (r1.distance : ℚ) ≤ (r2.distance : ℚ) := by exact_mod_cast hdist
    linarith
  have hadj : adjusted_time r1 ≤ adjusted_time r2 := by
    unfold adjusted_time
    rw [hpkg, hzone, hw, hh, hday]
    exact mul_le_mul_of_nonneg_right
      (mul_le_mul_of_nonneg_right
        (mul_le_mul_of_nonneg_right
          (mul_le_mul_of_nonneg_right
            (mul_le_mul_of_nonneg_right hb (package_multiplier_pos r2.package_type).le)
            (zone_multiplier_pos r2.delivery_zone).le)
          (weather_multiplier_pos r2.WeatherCondition).le)
        (peak_multiplier_pos r2.hour).le)
      (day_multiplier_pos r2.weekday).le
  refine ⟨hadj, ?_⟩
  unfold delay_threshold
  exact mul_le_mul_of_nonneg_right hadj (by norm_num)

/-- Witness for C7 at two concrete records differing only in distance. -/
theorem C7_witness :
    adjusted_time ⟨10, "Large", "Rural", some "Rainy", 18, "Friday", 0⟩ ≤
      adjusted_time ⟨20, "Large", "Rural", some "Rainy", 18, "Friday", 0⟩ :=
  (C7_monotone_in_distance ⟨10, "Large", "Rural", some "Rainy", 18, "Friday", 0⟩
    ⟨20, "Large", "Rural", some "Rainy", 18, "Friday", 0⟩
    rfl rfl rfl rfl rfl rfl (by norm_num)).1

/-- C8: the concrete scenario (distance 50, Medium, Urban, Sunny, hour 8,
Monday) has base time 70, expected time 157.248, delay threshold
157.248 * 1.2 = 188.6976 (188.70 when rounded to two decimals), and classifies
actual time 188 as On-time and 189 as Delayed. -/
theorem C8_end_to_end_scenario :
    base_time 50 = 70 ∧
    adjusted_time ⟨50, "Medium", "Urban", some "Sunny", 8, "Monday", 188⟩ = 157248/1000 ∧
    delay_threshold ⟨50, "Medium", "Urban", some "Sunny", 8, "Monday", 188⟩
      = (157248/1000) * (12/10) ∧
    round (delay_threshold ⟨50, "Medium", "Urban", some "Sunny", 8, "Monday", 188⟩ * 100)
      = (18870 : ℤ) ∧
    calculate_delivery_time ⟨50, "Medium", "Urban", some "Sunny", 8, "Monday", 188⟩
      = "On-time" ∧
    calculate_delivery_time ⟨50, "Medium", "Urban", some "Sunny", 8, "Monday", 189⟩
      = "Delayed" := by
  refine ⟨by norm_num [base_time], ?_, ?_, ?_, ?_, ?_⟩ <;>
    norm_num +decide [calculate_delivery_time, delay_threshold, adjusted_time, base_time,
      package_multiplier, zone_multiplier, weather_multiplier, getD, lookup?, package_factors,
      zone_factors, weather_factors, peak_multiplier, day_multiplier, round_eq]

/-- C9: classification is monotone in actual delivery time: with all other
fields fixed, if the record with the smaller actual time is Delayed then so is
the record with the larger one. -/
theorem C9_delayed_upward_closed (r1 r2 : Row)
    (hdist : r1.distance = r2.distance)
    (hpkg : r1.package_type = r2.package_type)
    (hzone : r1.delivery_zone = r2.delivery_zone)
    (hw : r1.WeatherCondition = r2.WeatherCondition)
    (hh : r1.hour = r2.hour)
    (hday : r1.weekday = r2.weekday)
    (hact : r1.actual_delivery_time ≤ r2.actual_delivery_time)
    (hdel : calculate_delivery_time r1 = "Delayed") :
    calculate_delivery_time r2 = "Delayed" := by
  have hth : delay_threshold r1 = delay_threshold r2 := by
    unfold delay_threshold adjusted_time base_time
    rw [hdist, hpkg, hzone, hw, hh, hday]
  have h1 : ¬ (delay_threshold r1 > (r1.actual_delivery_time : ℚ)) := by
    intro hgt
    unfold calculate_delivery_time at hdel
    rw [if_pos hgt] at hdel
    exact absurd hdel (by decide)
  have h2 : ¬ (delay_threshold r2 > (r2.actual_delivery_time : ℚ)) := by
    rw [← hth]
    intro hgt
    exact h1 (lt_of_le_of_lt (by exact_mod_cast hact) hgt)
  unfold calculate_delivery_time
  rw [if_neg h2]

/-- Witness for C9: a Delayed record stays Delayed at a larger actual time. -/
theorem C9_witness :
    calculate_delivery_time ⟨1, "Small", "Suburban", none, 0, "Tuesday", 200⟩ = "Delayed" :=
  C9_delayed_upward_closed ⟨1, "Small", "Suburban", none, 0, "Tuesday", 100⟩
    ⟨1, "Small", "Suburban", none, 0, "Tuesday", 200⟩
    rfl rfl rfl rfl rfl rfl (by norm_num)
    (by norm_num +decide [calculate_delivery_time, delay_threshold, adjusted_time, base_time,
      package_multiplier, zone_multiplier, weather_multiplier, getD, lookup?, package_factors,
      zone_factors, peak_multiplier, day_multiplier])

/-- C10: the weather lookup reads only the calendar date and the hour of its
timestamp: two timestamps equal on year, month, day and hour get the same
result from the same table, whatever their minutes and seconds. -/
theorem C10_lookup_date_hour_only (wd : WeatherTable) (t1 t2 : Timestamp)
    (hy : t1.year = t2.year) (hm : t1.month = t2.month) (hd : t1.day = t2.day)
    (hh : t1.hour = t2.hour) :
    get_weather wd t1 = get_weather wd t2 := by
  unfold get_weather dateStr hourStr
  rw [hy, hm, hd, hh]

/-- Witness for C10 at two timestamps differing only in minutes and seconds. -/
theorem C10_witness :
    get_weather [("2024-03-01", [("5", "Windy")])] ⟨2024, 3, 1, 5, 0, 0⟩ =
      get_weather [("2024-03-01", [("5", "Windy")])] ⟨2024, 3, 1, 5, 59, 59⟩ :=
  C10_lookup_date_hour_only [("2024-03-01", [("5", "Windy")])]
    ⟨2024, 3, 1, 5, 0, 0⟩ ⟨2024, 3, 1, 5, 59, 59⟩ rfl rfl rfl rfl

end SuperCourier
